import Mathlib

/-!
Verification of the simtemp sampling engine (kernel/nxp_simtemp.c) against its
natural-language specification.  The C sources are shallowly embedded: the
device context `struct simtemp_device` becomes an explicit state record, C
`int` arithmetic on the small values involved is carried out on `Int`/`Nat`
with C truncated division and modulus (`Int.tdiv`, `Int.tmod`) where a signed
operand can occur, the kfifo sample buffer becomes a capacity-bounded list,
and the randomness consumed by `get_random_bytes` becomes an explicit oracle
argument.
-/

namespace Simtemp

/-- C truncated integer division, as performed by the `/` operator on `int`. -/
def cdiv (a b : Int) : Int := Int.tdiv a b

/-- C truncated remainder, as performed by the `%` operator on `int`. -/
def cmod (a b : Int) : Int := Int.tmod a b

/-- Constant SIMTEMP_BUFFER_SIZE from nxp_simtemp.h. -/
def SIMTEMP_BUFFER_SIZE : Nat := 64

/-- Constant SIMTEMP_DEFAULT_SAMPLING_MS from nxp_simtemp.h. -/
def SIMTEMP_DEFAULT_SAMPLING_MS : Nat := 100

/-- Constant SIMTEMP_DEFAULT_THRESHOLD_MC from nxp_simtemp.h. -/
def SIMTEMP_DEFAULT_THRESHOLD_MC : Int := 45000

/-- Constant SIMTEMP_MIN_SAMPLING_MS from nxp_simtemp.h. -/
def SIMTEMP_MIN_SAMPLING_MS : Nat := 1

/-- Constant SIMTEMP_MAX_SAMPLING_MS from nxp_simtemp.h. -/
def SIMTEMP_MAX_SAMPLING_MS : Nat := 10000

/-- Constant SIMTEMP_BASE_TEMP_MC from nxp_simtemp.h (25.0 degrees C). -/
def SIMTEMP_BASE_TEMP_MC : Int := 25000

/-- Constant SIMTEMP_TEMP_RANGE_MC from nxp_simtemp.h (30.0 degrees C). -/
def SIMTEMP_TEMP_RANGE_MC : Int := 30000

/-- Constant SIMTEMP_NOISE_RANGE_MC from nxp_simtemp.h (2.0 degrees C). -/
def SIMTEMP_NOISE_RANGE_MC : Int := 2000

/-- Flag bit SIMTEMP_FLAG_NEW_SAMPLE = BIT(0). -/
def SIMTEMP_FLAG_NEW_SAMPLE : Nat := 1

/-- Flag bit SIMTEMP_FLAG_THRESHOLD_CROSSED = BIT(1). -/
def SIMTEMP_FLAG_THRESHOLD_CROSSED : Nat := 2

/-- Enum value SIMTEMP_MODE_NORMAL. -/
def SIMTEMP_MODE_NORMAL : Nat := 0

/-- Enum value SIMTEMP_MODE_NOISY. -/
def SIMTEMP_MODE_NOISY : Nat := 1

/-- Enum value SIMTEMP_MODE_RAMP. -/
def SIMTEMP_MODE_RAMP : Nat := 2

/-- Enum value SIMTEMP_MODE_MAX (first invalid mode value). -/
def SIMTEMP_MODE_MAX : Nat := 3

/-- Value of -EOVERFLOW (errno EOVERFLOW = 75). -/
def NEG_EOVERFLOW : Int := -75

/-- Value of -EINVAL (errno EINVAL = 22). -/
def NEG_EINVAL : Int := -22

/-- Embedding of `struct simtemp_sample` (timestamp_ns, temp_mC, flags). -/
structure SimtempSample where
  timestamp_ns : Nat
  temp_mC : Int
  flags : Nat
deriving DecidableEq

/-- Embedding of `struct simtemp_stats` (updates, alerts, read_calls,
poll_calls, last_error). -/
structure SimtempStats where
  updates : Nat
  alerts : Nat
  read_calls : Nat
  poll_calls : Nat
  last_error : Int
deriving DecidableEq

/-- Embedding of the mutable part of `struct simtemp_device`, together with
the static `counter` local to `simtemp_get_base_temperature` (single device
instance, so the static is part of the device state) and an abstract view of
the hrtimer: `timerExpiry = some t` means the timer is armed to fire at
absolute time `t`, `none` means it is not armed.  The sample kfifo is a list
whose head is the oldest entry. -/
structure SimtempDevice where
  sampling_ms : Nat
  threshold_mC : Int
  mode : Nat
  enabled : Bool
  last_temp_mC : Int
  counter : Nat
  stats : SimtempStats
  sample_buffer : List SimtempSample
  timerExpiry : Option Nat
deriving DecidableEq

/-- Embedding of `kfifo_put`: append at the tail when there is room, reject
(returning `false`) when the fifo already holds SIMTEMP_BUFFER_SIZE entries. -/
def kfifo_put (x : SimtempSample) (buf : List SimtempSample) :
    Bool × List SimtempSample :=
  if buf.length < SIMTEMP_BUFFER_SIZE then (true, buf ++ [x]) else (false, buf)

/-- Embedding of `kfifo_get`: remove and return the oldest entry, or fail on
an empty fifo. -/
def kfifo_get (buf : List SimtempSample) :
    Option SimtempSample × List SimtempSample :=
  match buf with
  | [] => (none, [])
  | x :: rest => (some x, rest)

/-- The piecewise-linear sine approximation computed inside
`simtemp_get_base_temperature` for a given `angle` (0 ≤ angle < 6280).  All
intermediate divisions act on non-negative operands, so C truncated division
coincides with `Nat` division. -/
def sineApproxAt (angle : Nat) : Int :=
  if angle < 1570 then ((angle * 1000) / 1570 : Nat)
  else if angle < 4710 then (1000 : Int) - (((angle - 1570) * 1000) / 1570 : Nat)
  else -((((angle - 4710) * 1000) / 1570 : Nat) : Int)

/-- The `angle` computed from the generator counter: `(counter * 300) % 6280`. -/
def angleOf (counter : Nat) : Nat := (counter * 300) % 6280

/-- Embedding of `simtemp_get_base_temperature`.  `noise_raw` is the oracle
value that `get_random_bytes` writes into the C `int noise`; the C `%` on a
possibly negative `int` is `Int.tmod`.  Returns the temperature and the
device state with the static counter advanced. -/
def simtemp_get_base_temperature (noise_raw : Int) (s : SimtempDevice) :
    Int × SimtempDevice :=
  let angle := angleOf s.counter
  let temp : Int :=
    if s.mode = SIMTEMP_MODE_NORMAL then
      SIMTEMP_BASE_TEMP_MC + cdiv (10000 * sineApproxAt angle) 1000
    else if s.mode = SIMTEMP_MODE_NOISY then
      let noise := cmod noise_raw SIMTEMP_NOISE_RANGE_MC
      SIMTEMP_BASE_TEMP_MC + cdiv (SIMTEMP_TEMP_RANGE_MC * sineApproxAt angle) 1000 + noise
    else if s.mode = SIMTEMP_MODE_RAMP then
      let k := s.counter % 200
      let frac := k % 100
      let ramp : Int :=
        if k ≤ 100 then cdiv ((frac : Int) * SIMTEMP_TEMP_RANGE_MC) 100
        else cdiv (((200 - k : Nat) : Int) * SIMTEMP_TEMP_RANGE_MC) 100
      SIMTEMP_BASE_TEMP_MC + ramp
    else 0
  (temp, { s with counter := s.counter + 1 })

/-- Result of one call to `simtemp_generate_sample`: the new device state,
the C return value, whether `wake_up_interruptible` was called on the wait
queue, and the sample the call constructed (none when disabled). -/
structure GenOut where
  state : SimtempDevice
  ret : Int
  wake : Bool
  sample : Option SimtempSample
deriving DecidableEq

/-- Embedding of `simtemp_generate_sample`.  `ts` is the value returned by
`ktime_get_ns`, `noise_raw` the randomness oracle.  Mirrors the source: early
return when disabled; threshold edge detection against the previous
`last_temp_mC`; alert counter bumped on a crossing; `kfifo_put`; on rejection
`stats.last_error` is set to -EOVERFLOW, on success `stats.updates` is
incremented; the wait queue is woken unconditionally at the end. -/
def simtemp_generate_sample (ts : Nat) (noise_raw : Int) (s : SimtempDevice) :
    GenOut :=
  if s.enabled = false then { state := s, ret := 0, wake := false, sample := none }
  else
    let r := simtemp_get_base_temperature noise_raw s
    let temp := r.1
    let s1 := r.2
    let crossed : Bool :=
      (decide (s.last_temp_mC < s.threshold_mC) && decide (s.threshold_mC ≤ temp)) ||
      (decide (s.threshold_mC ≤ s.last_temp_mC) && decide (temp < s.threshold_mC))
    let fl : Nat :=
      if crossed then SIMTEMP_FLAG_NEW_SAMPLE ||| SIMTEMP_FLAG_THRESHOLD_CROSSED
      else SIMTEMP_FLAG_NEW_SAMPLE
    let smp : SimtempSample := { timestamp_ns := ts, temp_mC := temp, flags := fl }
    let s2 :=
      if crossed then { s1 with stats := { s1.stats with alerts := s1.stats.alerts + 1 } }
      else s1
    let s3 := { s2 with last_temp_mC := temp }
    let pr := kfifo_put smp s3.sample_buffer
    let s4 := { s3 with sample_buffer := pr.2 }
    let s5 :=
      if pr.1 = false then { s4 with stats := { s4.stats with last_error := NEG_EOVERFLOW } }
      else { s4 with stats := { s4.stats with updates := s4.stats.updates + 1 } }
    { state := s5, ret := 0, wake := true, sample := some smp }

/-- Embedding of `struct simtemp_config`, the SET_CONFIG/GET_CONFIG ioctl
payload (`sampling_ms` and `mode` are __u32, `threshold_mC` is __s32). -/
structure SimtempConfig where
  sampling_ms : Nat
  threshold_mC : Int
  mode : Nat
  flags : Nat
deriving DecidableEq

/-- The ioctl command codes handled by `simtemp_ioctl`. -/
inductive SimtempIoctlCmd where
  | getConfig
  | setConfig (cfg : SimtempConfig)
  | getStats
  | resetStats
  | enable
  | disable
  | flushBuffer
deriving DecidableEq

/-- Result of one `simtemp_ioctl` call: new device state, C return value, and
whether the call performed any `wake_up` on the device wait queue. -/
structure IoctlOut where
  state : SimtempDevice
  ret : Int
  wake : Bool
deriving DecidableEq

/-- Embedding of `simtemp_ioctl` (user-copy steps assumed to succeed; they
touch no device state).  `now` is the current time, used when ENABLE starts
the hrtimer at `now + sampling_ms`.  Note that no command in the source calls
`wake_up_interruptible`, in particular DISABLE does not. -/
def simtemp_ioctl (now : Nat) (cmd : SimtempIoctlCmd) (s : SimtempDevice) :
    IoctlOut :=
  match cmd with
  | .getConfig => { state := s, ret := 0, wake := false }
  | .setConfig cfg =>
      if cfg.sampling_ms < SIMTEMP_MIN_SAMPLING_MS ∨
         cfg.sampling_ms > SIMTEMP_MAX_SAMPLING_MS ∨
         SIMTEMP_MODE_MAX ≤ cfg.mode then
        { state := s, ret := NEG_EINVAL, wake := false }
      else
        { state := { s with sampling_ms := cfg.sampling_ms,
                            threshold_mC := cfg.threshold_mC,
                            mode := cfg.mode },
          ret := 0, wake := false }
  | .getStats => { state := s, ret := 0, wake := false }
  | .resetStats =>
      { state := { s with stats := ⟨0, 0, 0, 0, 0⟩ }, ret := 0, wake := false }
  | .enable =>
      if s.enabled = false then
        { state := { s with enabled := true,
                            timerExpiry := some (now + s.sampling_ms) },
          ret := 0, wake := false }
      else { state := s, ret := 0, wake := false }
  | .disable =>
      { state := { s with enabled := false, timerExpiry := none },
        ret := 0, wake := false }
  | .flushBuffer =>
      { state := { s with sample_buffer := [] }, ret := 0, wake := false }

/-- Embedding of the sysfs `sampling_ms_store` write path: parse assumed
successful with value `val`; range check, then plain assignment under the
config mutex.  Returns the C status (0 for success) and the new state; the
hrtimer is not touched. -/
def sampling_ms_store (val : Nat) (s : SimtempDevice) : Int × SimtempDevice :=
  if val < SIMTEMP_MIN_SAMPLING_MS ∨ val > SIMTEMP_MAX_SAMPLING_MS then
    (NEG_EINVAL, s)
  else (0, { s with sampling_ms := val })

/-- Embedding of the sysfs `enabled_store` write path with parsed boolean
`val`: enabling while stopped starts the hrtimer, disabling while armed
cancels it.  The second component records whether the path called any
`wake_up` on the wait queue (the source never does). -/
def enabled_store (val : Bool) (now : Nat) (s : SimtempDevice) :
    SimtempDevice × Bool :=
  if val = true ∧ s.enabled = false then
    ({ s with enabled := true, timerExpiry := some (now + s.sampling_ms) }, false)
  else if val = false ∧ s.enabled = true then
    ({ s with enabled := false, timerExpiry := none }, false)
  else (s, false)

/-- Embedding of `simtemp_timer_callback`: the work item is scheduled (not
modelled here) and, when the device is still enabled, the timer is forwarded
by the current `sampling_ms`; otherwise it is not restarted. -/
def simtemp_timer_callback (now : Nat) (s : SimtempDevice) : SimtempDevice :=
  if s.enabled = true then { s with timerExpiry := some (now + s.sampling_ms) }
  else { s with timerExpiry := none }

/-- The condition a blocked reader waits for in `simtemp_read`:
`wait_event_interruptible(wq, !kfifo_is_empty(&sample_buffer))`.  The task is
released (other than by a signal) only when this becomes true and the queue
is woken. -/
def readWaitCond (s : SimtempDevice) : Bool := !s.sample_buffer.isEmpty

/-- Iterated `kfifo_put` of a list of samples, oldest first. -/
def kfifo_put_all (xs : List SimtempSample) (buf : List SimtempSample) :
    List SimtempSample :=
  match xs with
  | [] => buf
  | x :: rest => kfifo_put_all rest (kfifo_put x buf).2

/-- Iterated `kfifo_get`, collecting the returned samples in order; stops
early if the fifo empties. -/
def kfifo_get_n (n : Nat) (buf : List SimtempSample) :
    List SimtempSample × List SimtempSample :=
  match n with
  | 0 => ([], buf)
  | Nat.succ m =>
    match kfifo_get buf with
    | (none, b) => ([], b)
    | (some x, b) =>
        let r := kfifo_get_n m b
        (x :: r.1, r.2)

/-- The spec's formulation of the threshold-crossing condition, taken verbatim
from its words: the flag fires iff `(previous < threshold) != (current <
threshold)`.  Compared below against the source's edge-detection test. -/
def spec_opposite_sides (prev cur thr : Int) : Bool :=
  decide (prev < thr) != decide (cur < thr)

/-- The noise-free noisy-mode temperature for a given counter value: the
sine-approximation scaled by SIMTEMP_TEMP_RANGE_MC, with no noise term. -/
def noisySineValue (counter : Nat) : Int :=
  SIMTEMP_BASE_TEMP_MC +
    cdiv (SIMTEMP_TEMP_RANGE_MC * sineApproxAt (angleOf counter)) 1000

/-- Fresh statistics record. -/
def baseStats : SimtempStats := ⟨0, 0, 0, 0, 0⟩

/-- A concrete device state used to instantiate theorems: default
configuration, enabled, timer armed at t = 100, buffer empty, counter `k`,
mode `m`. -/
def mkState (m : Nat) (k : Nat) : SimtempDevice :=
  { sampling_ms := 100, threshold_mC := 45000, mode := m, enabled := true,
    last_temp_mC := 25000, counter := k, stats := baseStats,
    sample_buffer := [], timerExpiry := some 100 }

/-- A fixed sample value used to populate concrete buffers. -/
def sample0 : SimtempSample := ⟨0, 25000, 1⟩

/-- A concrete enabled device state whose buffer is full (64 entries). -/
def fullState : SimtempDevice :=
  { mkState SIMTEMP_MODE_NORMAL 0 with
      sample_buffer := List.replicate SIMTEMP_BUFFER_SIZE sample0 }

/-- The ramp-mode temperature the driver computes at counter value `k`. -/
def rampTempAt (k : Nat) : Int :=
  (simtemp_get_base_temperature 0 (mkState SIMTEMP_MODE_RAMP k)).1

/-- Helper: the first component of `kfifo_get` is the head of the fifo. -/
theorem kfifo_get_fst (l : List SimtempSample) : (kfifo_get l).1 = l.head? := by
  cases l <;> rfl

/-- Helper: the source's edge-detection boolean equals the spec's
opposite-sides formulation. -/
theorem crossed_eq_spec (prev cur thr : Int) :
    ((decide (prev < thr) && decide (thr ≤ cur)) ||
     (decide (thr ≤ prev) && decide (cur < thr))) =
    spec_opposite_sides prev cur thr := by
  unfold spec_opposite_sides
  by_cases h1 : prev < thr <;> by_cases h2 : cur < thr <;>
    simp [h1, h2, not_lt.mp, Int.not_lt.mp]

/-- Helper: bounds of the C truncated remainder by SIMTEMP_NOISE_RANGE_MC:
for any raw random value the result lies strictly between -2000 and 2000. -/
theorem cmod_noise_bounds (a : Int) :
    -SIMTEMP_NOISE_RANGE_MC < cmod a SIMTEMP_NOISE_RANGE_MC ∧
    cmod a SIMTEMP_NOISE_RANGE_MC < SIMTEMP_NOISE_RANGE_MC := by
  unfold cmod SIMTEMP_NOISE_RANGE_MC
  cases a with
  | ofNat m =>
      have he : Int.tmod (Int.ofNat m) 2000 = Int.ofNat (m % 2000) := rfl
      have h : m % 2000 < 2000 := Nat.mod_lt _ (by norm_num)
      rw [he, Int.ofNat_eq_natCast]
      omega
  | negSucc m =>
      have he : Int.tmod (Int.negSucc m) 2000 = -Int.ofNat ((m + 1) % 2000) := rfl
      have h : (m + 1) % 2000 < 2000 := Nat.mod_lt _ (by norm_num)
      rw [he, Int.ofNat_eq_natCast]
      omega

/-- Helper: pushing a list into a fifo with enough room appends it. -/
theorem kfifo_put_all_append (xs : List SimtempSample) :
    ∀ buf : List SimtempSample, buf.length + xs.length ≤ SIMTEMP_BUFFER_SIZE →
      kfifo_put_all xs buf = buf ++ xs := by
  induction xs with
  | nil => intro buf _; simp [kfifo_put_all]
  | cons x rest ih =>
      intro buf h
      have hlt : buf.length < SIMTEMP_BUFFER_SIZE := by
        simp at h
        omega
      have hput : (kfifo_put x buf).2 = buf ++ [x] := by
        simp [kfifo_put, hlt]
      rw [kfifo_put_all, hput, ih (buf ++ [x]) (by simp at h ⊢; omega)]
      simp

/-- Helper: draining a fifo completely returns its contents in order. -/
theorem kfifo_get_n_drain (l : List SimtempSample) :
    kfifo_get_n l.length l = (l, []) := by
  induction l with
  | nil => rfl
  | cons x rest ih => simp [kfifo_get_n, kfifo_get, ih]

/-- The spec's configuration-validity predicate, from its words: interval in
[1, 10000] and mode one of the defined variants; threshold unrestricted. -/
def spec_valid_config (cfg : SimtempConfig) : Prop :=
  (SIMTEMP_MIN_SAMPLING_MS ≤ cfg.sampling_ms ∧
   cfg.sampling_ms ≤ SIMTEMP_MAX_SAMPLING_MS) ∧
  (cfg.mode = SIMTEMP_MODE_NORMAL ∨ cfg.mode = SIMTEMP_MODE_NOISY ∨
   cfg.mode = SIMTEMP_MODE_RAMP)

instance (cfg : SimtempConfig) : Decidable (spec_valid_config cfg) := by
  unfold spec_valid_config
  infer_instance

/-- Claim C1: on every tick of an enabled device, the sample produced by
`simtemp_generate_sample` carries the threshold-crossed flag (bit 1) iff the
previous temperature (`last_temp_mC`) and the new temperature lie on opposite
sides of the threshold, `(previous < threshold) != (current < threshold)`;
the flag is never set otherwise (flags stay at NEW_SAMPLE only), and each
crossing increments the alerts counter by exactly 1 while a non-crossing
leaves it unchanged. -/
theorem C1_threshold_flag_iff (s : SimtempDevice) (ts : Nat) (raw : Int)
    (hen : s.enabled = true) :
    (simtemp_generate_sample ts raw s).sample =
      some { timestamp_ns := ts,
             temp_mC := (simtemp_get_base_temperature raw s).1,
             flags :=
               if spec_opposite_sides s.last_temp_mC
                    ((simtemp_get_base_temperature raw s).1) s.threshold_mC
               then SIMTEMP_FLAG_NEW_SAMPLE ||| SIMTEMP_FLAG_THRESHOLD_CROSSED
               else SIMTEMP_FLAG_NEW_SAMPLE } ∧
    ((simtemp_generate_sample ts raw s).sample.map
        (fun smp => smp.flags.testBit 1)) =
      some (spec_opposite_sides s.last_temp_mC
              ((simtemp_get_base_temperature raw s).1) s.threshold_mC) ∧
    (simtemp_generate_sample ts raw s).state.stats.alerts =
      (if spec_opposite_sides s.last_temp_mC
            ((simtemp_get_base_temperature raw s).1) s.threshold_mC
       then s.stats.alerts + 1 else s.stats.alerts) := by
  have h2 : (simtemp_get_base_temperature raw s).2 =
      { s with counter := s.counter + 1 } := rfl
  unfold simtemp_generate_sample
  simp only [hen, Bool.true_eq_false, if_false, h2, crossed_eq_spec]
  by_cases hb : s.sample_buffer.length < SIMTEMP_BUFFER_SIZE <;>
    cases hcr : spec_opposite_sides s.last_temp_mC
        ((simtemp_get_base_temperature raw s).1) s.threshold_mC <;>
      simp [kfifo_put, hb, hcr] <;> decide

/-- Witness for C1 at a concrete enabled state. -/
theorem C1_threshold_flag_iff_witness :
    (mkState SIMTEMP_MODE_NORMAL 0).enabled = true ∧
    (simtemp_generate_sample 7 0 (mkState SIMTEMP_MODE_NORMAL 0)).state.stats.alerts =
      (if spec_opposite_sides (mkState SIMTEMP_MODE_NORMAL 0).last_temp_mC
            ((simtemp_get_base_temperature 0 (mkState SIMTEMP_MODE_NORMAL 0)).1)
            (mkState SIMTEMP_MODE_NORMAL 0).threshold_mC
       then (mkState SIMTEMP_MODE_NORMAL 0).stats.alerts + 1
       else (mkState SIMTEMP_MODE_NORMAL 0).stats.alerts) :=
  ⟨rfl, (C1_threshold_flag_iff (mkState SIMTEMP_MODE_NORMAL 0) 7 0 rfl).2.2⟩

/-- Counterexample to claim C2 as stated: on a push into a full buffer the
driver has no lost-sample counter to increment; it overwrites
`stats.last_error` with -EOVERFLOW.  Starting from a full buffer with
`last_error = 0`, after the rejected push `last_error` is -75, not the old
value plus 1, and a second rejected push leaves it at -75 (sticky error code,
not a count). -/
theorem C2_full_buffer_counterexample :
    (simtemp_generate_sample 0 0 fullState).state.sample_buffer =
      fullState.sample_buffer ∧
    (simtemp_generate_sample 0 0 fullState).state.stats.last_error = -75 ∧
    fullState.stats.last_error = 0 ∧
    ¬ (simtemp_generate_sample 0 0 fullState).state.stats.last_error =
        fullState.stats.last_error + 1 ∧
    (simtemp_generate_sample 1 0
        (simtemp_generate_sample 0 0 fullState).state).state.stats.last_error =
      -75 := by decide

/-- Claim C2 (amended): a push into a full buffer (occupancy 64) leaves the
buffer contents (hence occupancy) unchanged — no entry is evicted — records
-EOVERFLOW in `stats.last_error` (instead of incrementing a lost-sample
counter, which the statistics record does not have), leaves `stats.updates`
unchanged, and the next pop still returns the oldest buffered sample. -/
theorem C2_full_buffer_amended (s : SimtempDevice) (ts : Nat) (raw : Int)
    (hen : s.enabled = true)
    (hfull : s.sample_buffer.length = SIMTEMP_BUFFER_SIZE) :
    (simtemp_generate_sample ts raw s).state.sample_buffer = s.sample_buffer ∧
    (simtemp_generate_sample ts raw s).state.stats.last_error = NEG_EOVERFLOW ∧
    (simtemp_generate_sample ts raw s).state.stats.updates = s.stats.updates ∧
    (kfifo_get (simtemp_generate_sample ts raw s).state.sample_buffer).1 =
      s.sample_buffer.head? := by
  have h2 : (simtemp_get_base_temperature raw s).2 =
      { s with counter := s.counter + 1 } := rfl
  have hb : ¬ s.sample_buffer.length < SIMTEMP_BUFFER_SIZE := by omega
  unfold simtemp_generate_sample
  simp only [hen, Bool.true_eq_false, if_false, h2]
  cases hcr : ((decide (s.last_temp_mC < s.threshold_mC) &&
        decide (s.threshold_mC ≤ (simtemp_get_base_temperature raw s).1)) ||
      (decide (s.threshold_mC ≤ s.last_temp_mC) &&
        decide ((simtemp_get_base_temperature raw s).1 < s.threshold_mC))) <;>
    simp [kfifo_put, hb, hcr, kfifo_get_fst]

/-- Witness for C2 (amended) at the concrete full-buffer state. -/
theorem C2_full_buffer_amended_witness :
    (fullState.enabled = true ∧
     fullState.sample_buffer.length = SIMTEMP_BUFFER_SIZE) ∧
    (simtemp_generate_sample 0 0 fullState).state.sample_buffer =
      fullState.sample_buffer ∧
    (simtemp_generate_sample 0 0 fullState).state.stats.last_error =
      NEG_EOVERFLOW ∧
    (simtemp_generate_sample 0 0 fullState).state.stats.updates =
      fullState.stats.updates ∧
    (kfifo_get (simtemp_generate_sample 0 0 fullState).state.sample_buffer).1 =
      fullState.sample_buffer.head? :=
  ⟨⟨rfl, by decide⟩, C2_full_buffer_amended fullState 0 0 rfl (by decide)⟩

/-- Claim C3: pushing any sequence of at most 64 samples into the empty fifo
and then popping that many returns exactly the pushed samples in push order
(strict FIFO). -/
theorem C3_fifo_order (xs : List SimtempSample)
    (h : xs.length ≤ SIMTEMP_BUFFER_SIZE) :
    (kfifo_get_n xs.length (kfifo_put_all xs [])).1 = xs := by
  rw [kfifo_put_all_append xs [] (by simpa using h)]
  simp only [List.nil_append]
  rw [kfifo_get_n_drain]

/-- Witness for C3 on a concrete three-sample sequence. -/
theorem C3_fifo_order_witness :
    ([sample0, ⟨1, 30000, 1⟩, ⟨2, 26000, 3⟩] : List SimtempSample).length ≤
      SIMTEMP_BUFFER_SIZE ∧
    (kfifo_get_n ([sample0, ⟨1, 30000, 1⟩, ⟨2, 26000, 3⟩] :
        List SimtempSample).length
      (kfifo_put_all [sample0, ⟨1, 30000, 1⟩, ⟨2, 26000, 3⟩] [])).1 =
      [sample0, ⟨1, 30000, 1⟩, ⟨2, 26000, 3⟩] :=
  ⟨by decide, C3_fifo_order [sample0, ⟨1, 30000, 1⟩, ⟨2, 26000, 3⟩] (by decide)⟩

/-- Claim C4 (code bug): with the buffer empty and the device enabled,
issuing the DISABLE ioctl (or writing 0 to the enabled attribute) neither
wakes the wait queue nor makes the reader's wait condition
(`!kfifo_is_empty`) true, so a reader blocked in `simtemp_read` is not
released by the disable; the read path has no `disabled` result at all. -/
theorem C4_disable_leaves_reader_blocked :
    (simtemp_ioctl 0 SimtempIoctlCmd.disable (mkState SIMTEMP_MODE_NORMAL 0)).wake
      = false ∧
    (simtemp_ioctl 0 SimtempIoctlCmd.disable
        (mkState SIMTEMP_MODE_NORMAL 0)).state.enabled = false ∧
    readWaitCond (simtemp_ioctl 0 SimtempIoctlCmd.disable
        (mkState SIMTEMP_MODE_NORMAL 0)).state = false ∧
    (enabled_store false 0 (mkState SIMTEMP_MODE_NORMAL 0)).2 = false ∧
    readWaitCond (enabled_store false 0 (mkState SIMTEMP_MODE_NORMAL 0)).1 =
      false := by decide

/-- Claim C5: the SET_CONFIG ioctl rejects a candidate with -EINVAL exactly
when the interval is outside [1, 10000] or the mode is not one of the three
defined variants (the threshold is never a cause of rejection), and on
rejection the stored configuration is completely untouched; on acceptance all
three fields are stored. -/
theorem C5_set_config_validation (cfg : SimtempConfig) (s : SimtempDevice)
    (now : Nat) :
    ((simtemp_ioctl now (.setConfig cfg) s).ret = NEG_EINVAL ↔
      ¬ spec_valid_config cfg) ∧
    ((simtemp_ioctl now (.setConfig cfg) s).ret = NEG_EINVAL →
      (simtemp_ioctl now (.setConfig cfg) s).state = s) ∧
    (spec_valid_config cfg →
      (simtemp_ioctl now (.setConfig cfg) s).ret = 0 ∧
      (simtemp_ioctl now (.setConfig cfg) s).state =
        { s with sampling_ms := cfg.sampling_ms,
                 threshold_mC := cfg.threshold_mC,
                 mode := cfg.mode }) := by
  by_cases hc : spec_valid_config cfg
  · have hcode : ¬ (cfg.sampling_ms < SIMTEMP_MIN_SAMPLING_MS ∨
        cfg.sampling_ms > SIMTEMP_MAX_SAMPLING_MS ∨
        SIMTEMP_MODE_MAX ≤ cfg.mode) := by
      simp only [spec_valid_config, SIMTEMP_MIN_SAMPLING_MS,
        SIMTEMP_MAX_SAMPLING_MS, SIMTEMP_MODE_MAX, SIMTEMP_MODE_NORMAL,
        SIMTEMP_MODE_NOISY, SIMTEMP_MODE_RAMP] at hc ⊢
      omega
    simp [simtemp_ioctl, hcode, hc, NEG_EINVAL]
  · have hcode : cfg.sampling_ms < SIMTEMP_MIN_SAMPLING_MS ∨
        cfg.sampling_ms > SIMTEMP_MAX_SAMPLING_MS ∨
        SIMTEMP_MODE_MAX ≤ cfg.mode := by
      simp only [spec_valid_config, SIMTEMP_MIN_SAMPLING_MS,
        SIMTEMP_MAX_SAMPLING_MS, SIMTEMP_MODE_MAX, SIMTEMP_MODE_NORMAL,
        SIMTEMP_MODE_NOISY, SIMTEMP_MODE_RAMP] at hc ⊢
      omega
    simp [simtemp_ioctl, hcode, hc, NEG_EINVAL]

/-- Witness for C5: one rejected and one accepted concrete candidate. -/
theorem C5_set_config_validation_witness :
    (simtemp_ioctl 0 (.setConfig ⟨0, 5, 0, 0⟩)
        (mkState SIMTEMP_MODE_NORMAL 0)).state = mkState SIMTEMP_MODE_NORMAL 0 ∧
    (simtemp_ioctl 0 (.setConfig ⟨50, 5, 0, 0⟩)
        (mkState SIMTEMP_MODE_NORMAL 0)).ret = 0 := by
  constructor
  · exact (C5_set_config_validation ⟨0, 5, 0, 0⟩
      (mkState SIMTEMP_MODE_NORMAL 0) 0).2.1 (by decide)
  · exact ((C5_set_config_validation ⟨50, 5, 0, 0⟩
      (mkState SIMTEMP_MODE_NORMAL 0) 0).2.2 (by decide)).1

/-- Claim C6 (code bug): in ramp mode the driver computes the ascending side
from `frac = k % 100`, so at `k = counter mod 200 = 100` the temperature
falls back to the base 25000 instead of the claimed peak
`base + 100 * range / 100 = 55000`; consequently, against the default
threshold 45000 the per-period temperature sequence crosses the threshold 4
times (at k = 67, 100, 101, 134), not the claimed 2. -/
theorem C6_ramp_dip_bug :
    rampTempAt 99 = 54700 ∧
    rampTempAt 100 = 25000 ∧
    ¬ rampTempAt 100 = 55000 ∧
    rampTempAt 101 = 54700 ∧
    (List.range 200).countP
        (fun i => (decide (rampTempAt i < SIMTEMP_DEFAULT_THRESHOLD_MC)) !=
                  (decide (rampTempAt (i + 1) < SIMTEMP_DEFAULT_THRESHOLD_MC)))
      = 4 ∧
    ¬ (List.range 200).countP
        (fun i => (decide (rampTempAt i < SIMTEMP_DEFAULT_THRESHOLD_MC)) !=
                  (decide (rampTempAt (i + 1) < SIMTEMP_DEFAULT_THRESHOLD_MC)))
      = 2 := by decide

/-- Counterexample to claim C7 as stated: the C noise term is `int % 2000` on
a raw random `int`, which is negative for negative raws; with raw = -1 and
counter = 0 the noisy temperature is 24999, strictly below the noise-free
sine value 25000, so the offset does not lie in [0, noise_range). -/
theorem C7_noise_counterexample :
    (simtemp_get_base_temperature (-1) (mkState SIMTEMP_MODE_NOISY 0)).1 =
      24999 ∧
    noisySineValue 0 = 25000 ∧
    ¬ (noisySineValue 0 ≤
        (simtemp_get_base_temperature (-1) (mkState SIMTEMP_MODE_NOISY 0)).1) :=
  by decide

/-- Claim C7 (amended): in noisy mode the added random offset lies in the
two-sided open range (-noise_range, noise_range): the returned temperature
always satisfies `sine_value - 2000 < temperature < sine_value + 2000`, where
`sine_value` is the noise-free sine-approximation temperature for the same
counter. -/
theorem C7_noise_amended (s : SimtempDevice) (raw : Int)
    (hm : s.mode = SIMTEMP_MODE_NOISY) :
    noisySineValue s.counter - SIMTEMP_NOISE_RANGE_MC <
      (simtemp_get_base_temperature raw s).1 ∧
    (simtemp_get_base_temperature raw s).1 <
      noisySineValue s.counter + SIMTEMP_NOISE_RANGE_MC := by
  have ht : (simtemp_get_base_temperature raw s).1 =
      noisySineValue s.counter + cmod raw SIMTEMP_NOISE_RANGE_MC := by
    unfold simtemp_get_base_temperature noisySineValue
    simp [hm, SIMTEMP_MODE_NOISY, SIMTEMP_MODE_NORMAL]
  have hb := cmod_noise_bounds raw
  rw [ht]
  unfold SIMTEMP_NOISE_RANGE_MC at hb ⊢
  omega

/-- Witness for C7 (amended) at a concrete noisy state and raw value. -/
theorem C7_noise_amended_witness :
    (mkState SIMTEMP_MODE_NOISY 0).mode = SIMTEMP_MODE_NOISY ∧
    (noisySineValue (mkState SIMTEMP_MODE_NOISY 0).counter -
        SIMTEMP_NOISE_RANGE_MC <
      (simtemp_get_base_temperature (-1) (mkState SIMTEMP_MODE_NOISY 0)).1 ∧
    (simtemp_get_base_temperature (-1) (mkState SIMTEMP_MODE_NOISY 0)).1 <
      noisySineValue (mkState SIMTEMP_MODE_NOISY 0).counter +
        SIMTEMP_NOISE_RANGE_MC) :=
  ⟨rfl, C7_noise_amended (mkState SIMTEMP_MODE_NOISY 0) (-1) rfl⟩

/-- Counterexample to claim C8 as stated: with the mode field holding the
undefined value 3, the generator returns 0, not the base temperature
25000. -/
theorem C8_unknown_mode_counterexample :
    (simtemp_get_base_temperature 0 (mkState 3 0)).1 = 0 ∧
    ¬ (simtemp_get_base_temperature 0 (mkState 3 0)).1 =
        SIMTEMP_BASE_TEMP_MC := by decide

/-- Claim C8 (amended): for every counter value, when the mode field holds a
value that is not one of the defined variants, the generator returns 0 (a
passive fallback, not an error) and still advances the counter. -/
theorem C8_unknown_mode_amended (s : SimtempDevice) (raw : Int)
    (h0 : ¬ s.mode = SIMTEMP_MODE_NORMAL) (h1 : ¬ s.mode = SIMTEMP_MODE_NOISY)
    (h2 : ¬ s.mode = SIMTEMP_MODE_RAMP) :
    (simtemp_get_base_temperature raw s).1 = 0 ∧
    (simtemp_get_base_temperature raw s).2 =
      { s with counter := s.counter + 1 } := by
  unfold simtemp_get_base_temperature
  simp [h0, h1, h2]

/-- Witness for C8 (amended) at mode value 3. -/
theorem C8_unknown_mode_amended_witness :
    (¬ (mkState 3 0).mode = SIMTEMP_MODE_NORMAL ∧
     ¬ (mkState 3 0).mode = SIMTEMP_MODE_NOISY ∧
     ¬ (mkState 3 0).mode = SIMTEMP_MODE_RAMP) ∧
    (simtemp_get_base_temperature 7 (mkState 3 0)).1 = 0 ∧
    (simtemp_get_base_temperature 7 (mkState 3 0)).2 =
      { mkState 3 0 with counter := (mkState 3 0).counter + 1 } :=
  ⟨⟨by decide, by decide, by decide⟩,
   C8_unknown_mode_amended (mkState 3 0) 7 (by decide) (by decide) (by decide)⟩

/-- A concrete config candidate changing only the interval (to 5 ms). -/
def cfgFast : SimtempConfig := ⟨5, 45000, 0, 0⟩

/-- Counterexample to claim C9 as stated: on the armed state (timer pending
at t = 100, interval 100 ms) an accepted SET_CONFIG changing the interval to
5 ms leaves the pending expiry at 100 — the timer is not restarted at
`now + new_interval = 55`; the sysfs `sampling_ms` store path likewise leaves
the pending expiry in place. -/
theorem C9_no_reschedule_counterexample :
    (simtemp_ioctl 50 (.setConfig cfgFast) (mkState SIMTEMP_MODE_NORMAL 0)).ret
      = 0 ∧
    (mkState SIMTEMP_MODE_NORMAL 0).enabled = true ∧
    ¬ cfgFast.sampling_ms = (mkState SIMTEMP_MODE_NORMAL 0).sampling_ms ∧
    (simtemp_ioctl 50 (.setConfig cfgFast)
        (mkState SIMTEMP_MODE_NORMAL 0)).state.sampling_ms = 5 ∧
    (simtemp_ioctl 50 (.setConfig cfgFast)
        (mkState SIMTEMP_MODE_NORMAL 0)).state.timerExpiry = some 100 ∧
    ¬ (simtemp_ioctl 50 (.setConfig cfgFast)
        (mkState SIMTEMP_MODE_NORMAL 0)).state.timerExpiry =
        some (50 + cfgFast.sampling_ms) ∧
    (sampling_ms_store 5 (mkState SIMTEMP_MODE_NORMAL 0)).2.timerExpiry =
      some 100 := by decide

/-- Claim C9 (amended): an accepted configuration write while the device is
armed leaves the pending tick's expiry unchanged (neither the SET_CONFIG
ioctl nor the sysfs sampling_ms store touches the hrtimer); the new interval
takes effect only when the pending tick fires, the timer callback then
forwarding the timer by the new period. -/
theorem C9_interval_change_amended (s : SimtempDevice) (cfg : SimtempConfig)
    (now later : Nat)
    (hacc : (simtemp_ioctl now (.setConfig cfg) s).ret = 0)
    (hen : s.enabled = true) :
    (simtemp_ioctl now (.setConfig cfg) s).state.timerExpiry = s.timerExpiry ∧
    (simtemp_ioctl now (.setConfig cfg) s).state.sampling_ms =
      cfg.sampling_ms ∧
    (simtemp_timer_callback later
        (simtemp_ioctl now (.setConfig cfg) s).state).timerExpiry =
      some (later + cfg.sampling_ms) ∧
    (sampling_ms_store cfg.sampling_ms s).2.timerExpiry = s.timerExpiry := by
  by_cases hc : (cfg.sampling_ms < SIMTEMP_MIN_SAMPLING_MS ∨
      cfg.sampling_ms > SIMTEMP_MAX_SAMPLING_MS ∨
      SIMTEMP_MODE_MAX ≤ cfg.mode)
  · exfalso
    simp [simtemp_ioctl, hc, NEG_EINVAL] at hacc
  · constructor
    · simp [simtemp_ioctl, hc]
    constructor
    · simp [simtemp_ioctl, hc]
    constructor
    · simp [simtemp_ioctl, hc, simtemp_timer_callback, hen]
    · unfold sampling_ms_store
      by_cases hv : (cfg.sampling_ms < SIMTEMP_MIN_SAMPLING_MS ∨
          cfg.sampling_ms > SIMTEMP_MAX_SAMPLING_MS) <;> simp [hv]

/-- Witness for C9 (amended) at the concrete armed state and candidate. -/
theorem C9_interval_change_amended_witness :
    ((simtemp_ioctl 50 (.setConfig cfgFast)
        (mkState SIMTEMP_MODE_NORMAL 0)).ret = 0 ∧
     (mkState SIMTEMP_MODE_NORMAL 0).enabled = true) ∧
    (simtemp_ioctl 50 (.setConfig cfgFast)
        (mkState SIMTEMP_MODE_NORMAL 0)).state.timerExpiry =
      (mkState SIMTEMP_MODE_NORMAL 0).timerExpiry ∧
    (simtemp_ioctl 50 (.setConfig cfgFast)
        (mkState SIMTEMP_MODE_NORMAL 0)).state.sampling_ms =
      cfgFast.sampling_ms ∧
    (simtemp_timer_callback 200 (simtemp_ioctl 50 (.setConfig cfgFast)
        (mkState SIMTEMP_MODE_NORMAL 0)).state).timerExpiry =
      some (200 + cfgFast.sampling_ms) ∧
    (sampling_ms_store cfgFast.sampling_ms
        (mkState SIMTEMP_MODE_NORMAL 0)).2.timerExpiry =
      (mkState SIMTEMP_MODE_NORMAL 0).timerExpiry :=
  ⟨⟨by decide, rfl⟩,
   C9_interval_change_amended (mkState SIMTEMP_MODE_NORMAL 0) cfgFast 50 200
     (by decide) rfl⟩

/-- Claim C10: when the device is disabled, `simtemp_generate_sample` returns
0 and has no effect at all: no sample is constructed or pushed, no statistic
changes, `last_temp_mC` stays, the generator counter does not advance, and no
wake-up is issued. -/
theorem C10_disabled_generate_noop (s : SimtempDevice) (ts : Nat) (raw : Int)
    (hdis : s.enabled = false) :
    simtemp_generate_sample ts raw s =
      { state := s, ret := 0, wake := false, sample := none } := by
  unfold simtemp_generate_sample
  simp [hdis]

/-- Witness for C10 at a concrete disabled state. -/
theorem C10_disabled_generate_noop_witness :
    ({ mkState SIMTEMP_MODE_NORMAL 0 with enabled := false } :
        SimtempDevice).enabled = false ∧
    simtemp_generate_sample 9 3
        { mkState SIMTEMP_MODE_NORMAL 0 with enabled := false } =
      { state := { mkState SIMTEMP_MODE_NORMAL 0 with enabled := false },
        ret := 0, wake := false, sample := none } :=
  ⟨rfl, C10_disabled_generate_noop
    { mkState SIMTEMP_MODE_NORMAL 0 with enabled := false } 9 3 rfl⟩

end Simtemp
